import Mathlib

/-!
Verification of the aggregation core of endpoints-management-python.

Shallow embedding of the modules the claims concern:
  * `google/scc/money.py`                      → `Money`, `moneyAdd`
  * `google/scc/aggregators/metric_value.py`   → `MetricValue`, `metricValueMerge`, `updateHashTokens`
  * `google/scc/aggregators/operation.py`      → `OpAggState`, `opAggAdd`
  * `google/scc/aggregators/check_request.py`  → `checkSignTokens`, `CheckAggState`, `checkStep`
  * `google/scc/aggregators/report_request.py` → `keyBySignature`, `reportStep`
  * `google/scc/caches.py`                     → `cachesCreate`
  * `endpoints_management/control/quota_request.py` → `quotaSignTokens`, `QuotaAggState`,
    `allocateQuota`, `quotaFlush`, `convertResponse`

Machine integers are modelled as `Int` (Python ints are unbounded; the int64
bounds appear explicitly where the source uses them).  Timestamps are modelled
as instants on an integer time line (the source compares datetimes/rfc3339
strings through `timestamp.compare`, which is a total order on instants).
Hashing (md5) is modelled by the exact token stream fed to the digest: two
operations get the same signature exactly when they feed the same stream.
-/

namespace EMPy

/-! ### google/scc/money.py -/

def INT64_MAX : Int := 9223372036854775807

def INT64_MIN : Int := -9223372036854775808

def BILLION : Int := 1000000000

def MAX_NANOS : Int := BILLION - 1

structure Money where
  currencyCode : String
  units : Int
  nanos : Int
deriving DecidableEq, Repr

/-- `money.check_valid` as a Boolean: 3-letter currency, signs of `units` and
`nanos` agree when both are nonzero, `|nanos| ≤ MAX_NANOS`. -/
def moneyCheckValid (m : Money) : Bool :=
  m.currencyCode.length == 3 &&
  !((m.units > 0 && m.nanos < 0) || (m.units < 0 && m.nanos > 0)) &&
  |m.nanos| ≤ MAX_NANOS

inductive MoneyError where
  | valueError
  | overflowError
deriving DecidableEq, Repr

/-- `money._sign_of`. -/
def moneySignOf (m : Money) : Int :=
  if m.units > 0 then 1
  else if m.units < 0 then -1
  else if m.nanos > 0 then 1
  else if m.nanos < 0 then -1
  else 0

/-- `money._sum_nanos`: returns `(carry, nanos_sum)`.  Note the asymmetric
boundary tests taken verbatim from the source: carry on `sum > BILLION` but on
`sum ≤ -BILLION`. -/
def sumNanos (a b : Money) : Int × Int :=
  let s := a.nanos + b.nanos
  if s > BILLION then (1, s - BILLION)
  else if s ≤ -BILLION then (-1, s + BILLION)
  else (0, s)

/-- `money.add`. -/
def moneyAdd (a b : Money) (allowOverflow : Bool) : Except MoneyError Money :=
  if a.currencyCode ≠ b.currencyCode then .error .valueError
  else
    let carryAndNanos := sumNanos a b
    let carry := carryAndNanos.1
    let nanosSum0 := carryAndNanos.2
    let unitsSumNoCarry := a.units + b.units
    let unitsSum0 := unitsSumNoCarry + carry
    let adjusted :=
      if unitsSum0 > 0 ∧ nanosSum0 < 0 then (unitsSum0 - 1, nanosSum0 + BILLION)
      else if unitsSum0 < 0 ∧ nanosSum0 > 0 then (unitsSum0 + 1, nanosSum0 - BILLION)
      else (unitsSum0, nanosSum0)
    let unitsSum := adjusted.1
    let nanosSum := adjusted.2
    if moneySignOf a > 0 ∧ moneySignOf b > 0 ∧ unitsSum ≥ INT64_MAX then
      if !allowOverflow then .error .overflowError
      else .ok ⟨a.currencyCode, INT64_MAX, MAX_NANOS⟩
    else if moneySignOf a < 0 ∧ moneySignOf b < 0 ∧
        (unitsSumNoCarry ≤ -INT64_MAX ∨ unitsSum ≤ -INT64_MAX) then
      if !allowOverflow then .error .overflowError
      else .ok ⟨a.currencyCode, INT64_MIN, -MAX_NANOS⟩
    else .ok ⟨a.currencyCode, unitsSum, nanosSum⟩

/-- C7: adding `{USD, INT64_MAX-1, 0}` and `{USD, 2, 0}` errors without
`allow_overflow` and clamps to `{INT64_MAX, MAX_NANOS}` with it; symmetrically
two negative operands overflow to an error or to `{INT64_MIN, -MAX_NANOS}`. -/
theorem c7_money_overflow :
    moneyAdd ⟨"USD", INT64_MAX - 1, 0⟩ ⟨"USD", 2, 0⟩ false = .error .overflowError ∧
    moneyAdd ⟨"USD", INT64_MAX - 1, 0⟩ ⟨"USD", 2, 0⟩ true =
      .ok ⟨"USD", INT64_MAX, MAX_NANOS⟩ ∧
    moneyAdd ⟨"USD", -(INT64_MAX - 1), 0⟩ ⟨"USD", -2, 0⟩ false = .error .overflowError ∧
    moneyAdd ⟨"USD", -(INT64_MAX - 1), 0⟩ ⟨"USD", -2, 0⟩ true =
      .ok ⟨"USD", INT64_MIN, -MAX_NANOS⟩ := by
  refine ⟨rfl, rfl, rfl, rfl⟩

/-- C8: the sum of two valid `Money` values can violate the `Money` invariant:
`500000000 + 500000000` nanos gives exactly `BILLION` which the carry test
(`sum > BILLION`, not `≥`) fails to normalize, so `add` returns
`nanos = 1000000000 > MAX_NANOS`. -/
theorem c8_money_add_invariant_broken :
    moneyCheckValid ⟨"USD", 0, 500000000⟩ = true ∧
    moneyCheckValid ⟨"USD", 0, 500000000⟩ = true ∧
    moneyAdd ⟨"USD", 0, 500000000⟩ ⟨"USD", 0, 500000000⟩ false =
      .ok ⟨"USD", 0, 1000000000⟩ ∧
    moneyCheckValid ⟨"USD", 0, 1000000000⟩ = false := by
  refine ⟨by decide, by decide, rfl, by decide⟩

/-! ### google/scc/timestamp.py and metric kinds

Timestamps are instants on an integer line; `timestamp.compare` raises when the
operands mix set/unset representations and returns `-1 / 0 / 1` otherwise
(`None` compared with `None` yields `0` under Python 2).  -/

inductive MetricKind where
  | DELTA
  | GAUGE
  | CUMULATIVE
deriving DecidableEq, Repr

inductive MergeError where
  | incompatibleTypes
  | unsupportedTypes
  | unmergeableType
  | timeTypeError
  | moneyValueError
  | badRequest
deriving DecidableEq, Repr

/-- `timestamp.compare` lifted to optional instants. -/
def tsCompare : Option Int → Option Int → Except MergeError Int
  | none, none => .ok 0
  | some a, some b => .ok (if a < b then -1 else if b < a then 1 else 0)
  | _, _ => .error .timeTypeError

/-! ### google/scc/aggregators/metric_value.py

`MetricValue` is a tagged union.  The repo additionally has `doubleValue` and
`distributionValue` variants; IEEE floats are outside this embedding and no
claim depends on them, so the value universe here is bool/int64/string/money. -/

inductive MVData where
  | boolValue (b : Bool)
  | int64Value (i : Int)
  | stringValue (s : String)
  | moneyValue (m : Money)
deriving DecidableEq, Repr

/-- `_detect_value` type compatibility: same oneof field assigned. -/
def MVData.sameType : MVData → MVData → Bool
  | .boolValue _, .boolValue _ => true
  | .int64Value _, .int64Value _ => true
  | .stringValue _, .stringValue _ => true
  | .moneyValue _, .moneyValue _ => true
  | _, _ => false

structure MetricValue where
  labels : List (String × String)
  startTime : Option Int
  endTime : Option Int
  data : MVData
deriving DecidableEq, Repr

/-- `_merge_delta_timestamps` on start times: keep the earlier set one. -/
def mergeStartTimes : Option Int → Option Int → Option Int
  | some a, none => some a
  | some a, some b => if a < b then some a else some b
  | none, x => x

/-- `_merge_delta_timestamps` on end times: keep the later set one. -/
def mergeEndTimes : Option Int → Option Int → Option Int
  | some a, none => some a
  | some a, some b => if b < a then some a else some b
  | none, x => x

/-- `_combine_delta_values`: int64 values add; money adds with
`allow_overflow=True`; bool/string are unmergeable. -/
def combineDeltaValues : MVData → MVData → Except MergeError MVData
  | .int64Value a, .int64Value b => .ok (.int64Value (a + b))
  | .moneyValue a, .moneyValue b =>
      match moneyAdd a b true with
      | .ok m => .ok (.moneyValue m)
      | .error _ => .error .moneyValueError
  | _, _ => .error .unmergeableType

/-- `_merge_delta_metric`: the source mutates `latest` in place (timestamps
then the combined value) and returns it, so the result keeps `latest`'s
labels. -/
def mergeDeltaMetric (prior latest : MetricValue) : Except MergeError MetricValue := do
  let v ← combineDeltaValues prior.data latest.data
  .ok ⟨latest.labels, mergeStartTimes prior.startTime latest.startTime,
       mergeEndTimes prior.endTime latest.endTime, v⟩

/-- `_merge_cumulative_or_gauge_metrics`: return `latest` exactly when
`prior.endTime < latest.endTime`, otherwise keep `prior` (ties keep prior). -/
def mergeCumulativeOrGauge (prior latest : MetricValue) : Except MergeError MetricValue := do
  let c ← tsCompare prior.endTime latest.endTime
  if c = -1 then .ok latest else .ok prior

/-- `metric_value.merge`. -/
def metricValueMerge (kind : MetricKind) (prior latest : MetricValue) :
    Except MergeError MetricValue :=
  if !(prior.data.sameType latest.data) then .error .incompatibleTypes
  else if kind = .DELTA then mergeDeltaMetric prior latest
  else mergeCumulativeOrGauge prior latest

/-! ### Hash token streams

md5 is modelled by the byte stream fed to it: a list of `HashTok`.  `nul` is
the `\x00` separator byte; `str s` the UTF-8 bytes of `s`. -/

inductive HashTok where
  | str (s : String)
  | nul
deriving DecidableEq, Repr

/-- Insertion of a label into a key-sorted list. -/
def insertLabelSorted (kv : String × String) :
    List (String × String) → List (String × String)
  | [] => [kv]
  | x :: xs => if kv.1 ≤ x.1 then kv :: x :: xs else x :: insertLabelSorted kv xs

/-- Sort labels by key. -/
def sortLabels (d : List (String × String)) : List (String × String) :=
  d.foldr insertLabelSorted []

/-- Modelled from the spec: `signing.add_dict_to_hash` (the module
`google/scc/signing.py` is not under `src/`).  Per spec §4.1 step 3, each
`(k, v)` sorted by `k` contributes `k, 0x00, v, 0x00`. -/
def addDictToHash (d : List (String × String)) : List HashTok :=
  ((sortLabels d).map (fun kv => [HashTok.str kv.1, .nul, .str kv.2, .nul])).flatten

/-- `metric_value.update_hash`: the labels (when non-empty) and, for money
values, a `0x00` then the currency code.  Numeric payloads and timestamps are
never fed. -/
def updateHashTokens (mv : MetricValue) : List HashTok :=
  (if mv.labels.isEmpty then [] else addDictToHash mv.labels) ++
  (match mv.data with
   | .moneyValue m => [.nul, .str m.currencyCode]
   | _ => [])

/-- `metric_value.sign`: md5 over exactly `updateHashTokens`; used as the
cache key for metric values inside an operation aggregator. -/
def metricValueSign (mv : MetricValue) : List HashTok :=
  updateHashTokens mv

/-! ### Operations (servicecontrol messages) -/

structure MetricValueSet where
  metricName : String
  metricValues : List MetricValue
deriving DecidableEq, Repr

inductive Importance where
  | LOW
  | HIGH
deriving DecidableEq, Repr

structure Operation where
  operationId : Option String
  operationName : Option String
  consumerId : Option String
  startTime : Option Int
  endTime : Option Int
  importance : Importance
  labels : List (String × String)
  metricValueSets : List MetricValueSet
  logEntries : List String
  quotaProperties : Option String
deriving DecidableEq, Repr

/-- Association-list update: overwrite the binding of `k` in place, append
when absent (Python dict assignment). -/
def alUpdate {α β : Type} [DecidableEq α] (k : α) (v : β) :
    List (α × β) → List (α × β)
  | [] => [(k, v)]
  | (k', v') :: rest => if k = k' then (k, v) :: rest else (k', v') :: alUpdate k v rest

/-- Association-list lookup with decidable keys. -/
def alGet {α β : Type} [DecidableEq α] (k : α) : List (α × β) → Option β
  | [] => none
  | (k', v) :: rest => if k = k' then some v else alGet k rest

/-! ### google/scc/aggregators/operation.py -/

/-- `kinds.get(name, DEFAULT_KIND)` with `DEFAULT_KIND = DELTA`. -/
def kindsGet (kinds : List (String × MetricKind)) (name : String) : MetricKind :=
  (alGet name kinds).getD .DELTA

/-- State of `operation.Aggregator`: the kept operation (metric value sets
emptied) and `_metric_values_by_name_then_sign`. -/
structure OpAggState where
  kinds : List (String × MetricKind)
  op : Operation
  byNameThenSign : List (String × List (List HashTok × MetricValue))
deriving DecidableEq, Repr

/-- One iteration of the inner loop of `operation.Aggregator._merge_metric_values`:

```
signature = metric_value.sign(mv)
prior = by_signature.get(signature)
if prior is not None:
    metric_value.merge(kind, prior, mv)
by_signature[signature] = mv
```

The merge result is *discarded*; the (for DELTA, mutated-in-place) `mv` is
stored.  For DELTA kinds the mutation makes `mv` the merged value; for
GAUGE/CUMULATIVE kinds `merge` is pure and the incoming `mv` is stored
whatever the end-time comparison said.  Errors raised by `merge` propagate. -/
def mergeOneMetricValue (kind : MetricKind) (bySig : List (List HashTok × MetricValue))
    (mv : MetricValue) : Except MergeError (List (List HashTok × MetricValue)) :=
  let sig := metricValueSign mv
  match alGet sig bySig with
  | none => .ok (alUpdate sig mv bySig)
  | some prior => do
      let merged ← metricValueMerge kind prior mv
      if kind = .DELTA then .ok (alUpdate sig merged bySig)
      else .ok (alUpdate sig mv bySig)

/-- `operation.Aggregator._merge_metric_values` over the value sets of an
incoming operation. -/
def opAggMergeMetricValues (st : OpAggState) (sets : List MetricValueSet) :
    Except MergeError OpAggState :=
  sets.foldlM (fun acc vs => do
    let bySig := (alGet vs.metricName acc.byNameThenSign).getD []
    let bySig' ← vs.metricValues.foldlM (mergeOneMetricValue (kindsGet acc.kinds vs.metricName)) bySig
    .ok ⟨acc.kinds, acc.op, alUpdate vs.metricName bySig' acc.byNameThenSign⟩) st

/-- `operation.Aggregator.__init__`: copy the initial operation, fold its
metric values into the signature map, empty the copy's value sets. -/
def opAggInit (kinds : List (String × MetricKind)) (initialOp : Operation) :
    Except MergeError OpAggState :=
  opAggMergeMetricValues
    ⟨kinds,
     ⟨initialOp.operationId, initialOp.operationName, initialOp.consumerId,
      initialOp.startTime, initialOp.endTime, initialOp.importance,
      initialOp.labels, [], initialOp.logEntries, initialOp.quotaProperties⟩,
     []⟩
    initialOp.metricValueSets

/-- `operation.Aggregator._merge_timestamps` applied to the held operation. -/
def opAggMergeTimestamps (op : Operation) (other : Operation) : Operation :=
  ⟨op.operationId, op.operationName, op.consumerId,
   mergeStartTimes other.startTime op.startTime,
   mergeEndTimes other.endTime op.endTime,
   op.importance, op.labels, op.metricValueSets, op.logEntries, op.quotaProperties⟩

/-- `operation.Aggregator.add`: extend log entries, merge timestamps, merge
metric values. -/
def opAggAdd (st : OpAggState) (other : Operation) : Except MergeError OpAggState :=
  let op' := opAggMergeTimestamps st.op other
  opAggMergeMetricValues
    ⟨st.kinds,
     ⟨op'.operationId, op'.operationName, op'.consumerId, op'.startTime, op'.endTime,
      op'.importance, op'.labels, op'.metricValueSets,
      st.op.logEntries ++ other.logEntries, op'.quotaProperties⟩,
     st.byNameThenSign⟩
    other.metricValueSets

/-- Stored metric value for metric `name` under signature `sig`. -/
def opAggStored (st : OpAggState) (name : String) (sig : List HashTok) :
    Option MetricValue :=
  (alGet name st.byNameThenSign).bind (alGet sig)

/-- A one-metric GAUGE operation used to exercise the aggregator. -/
def gaugeOp (t : Int) (v : Int) : Operation :=
  ⟨some "op-id", some "AMethod", some "project:p", some 0, some t, .LOW, [],
   [⟨"g", [⟨[], none, some t, .int64Value v⟩]⟩], [], none⟩

/-- C5 (failing evaluation): with `kinds = {g: GAUGE}`, seed the aggregator
with a value whose `end_time = 2`, then merge an operation carrying a value
with the same signature and `end_time = 1`.  The helper
`_merge_cumulative_or_gauge_metrics` picks the prior (later `end_time`) value,
but `_merge_metric_values` drops that result and stores the incoming value:
the stored value after the merge is the *earlier* one, value `9`,
`end_time = 1`. -/
theorem c5_gauge_merge_keeps_later_arrival :
    (mergeCumulativeOrGauge ⟨[], none, some 2, .int64Value 7⟩ ⟨[], none, some 1, .int64Value 9⟩ =
      .ok ⟨[], none, some 2, .int64Value 7⟩) ∧
    ((opAggInit [("g", .GAUGE)] (gaugeOp 2 7)).bind (fun st => opAggAdd st (gaugeOp 1 9))).map
      (fun st => opAggStored st "g" []) =
      .ok (some ⟨[], none, some 1, .int64Value 9⟩) := by
  exact ⟨rfl, rfl⟩

/-! ### google/scc/aggregators/check_request.py — `sign` -/

/-- The md5 input stream of `check_request.sign`: method name, `0x00`,
consumer id, the (sorted) labels, then per metric value set a `0x00`, the
metric name and each value's `update_hash` contribution, a `0x00`, the quota
properties' canonical text when set, and a trailing `0x00`. -/
def checkSignTokens (op : Operation) : Except MergeError (List HashTok) :=
  match op.operationName, op.consumerId with
  | some name, some cid =>
      .ok ([HashTok.str name, .nul, .str cid] ++
        (if op.labels.isEmpty then [] else addDictToHash op.labels) ++
        (op.metricValueSets.map (fun vs =>
          [HashTok.nul, .str vs.metricName] ++
          (vs.metricValues.map updateHashTokens).flatten)).flatten ++
        [HashTok.nul] ++
        (match op.quotaProperties with
         | some qp => [HashTok.str qp]
         | none => []) ++
        [HashTok.nul])
  | _, _ => .error .badRequest

/-- Everything `update_hash` reads from a metric value: its labels and, for
money, the currency code. -/
def mvIdentity (mv : MetricValue) : List (String × String) × Option String :=
  (mv.labels,
   match mv.data with
   | .moneyValue m => some m.currencyCode
   | _ => none)

/-- Everything `check_request.sign` reads from an operation. -/
structure OpIdentity where
  operationName : Option String
  consumerId : Option String
  labels : List (String × String)
  metricIdentities : List (String × List (List (String × String) × Option String))
  quotaProperties : Option String
deriving DecidableEq, Repr

def opIdentity (op : Operation) : OpIdentity :=
  ⟨op.operationName, op.consumerId, op.labels,
   op.metricValueSets.map (fun vs => (vs.metricName, vs.metricValues.map mvIdentity)),
   op.quotaProperties⟩

def mvIdentTokens (p : List (String × String) × Option String) : List HashTok :=
  (if p.1.isEmpty then [] else addDictToHash p.1) ++
  (match p.2 with
   | some c => [HashTok.nul, .str c]
   | none => [])

def checkSignOfIdentity (ident : OpIdentity) : Except MergeError (List HashTok) :=
  match ident.operationName, ident.consumerId with
  | some name, some cid =>
      .ok ([HashTok.str name, .nul, .str cid] ++
        (if ident.labels.isEmpty then [] else addDictToHash ident.labels) ++
        (ident.metricIdentities.map (fun p =>
          [HashTok.nul, .str p.1] ++ (p.2.map mvIdentTokens).flatten)).flatten ++
        [HashTok.nul] ++
        (match ident.quotaProperties with
         | some qp => [HashTok.str qp]
         | none => []) ++
        [HashTok.nul])
  | _, _ => .error .badRequest

theorem updateHashTokens_factors (mv : MetricValue) :
    updateHashTokens mv = mvIdentTokens (mvIdentity mv) := by
  cases mv with
  | mk l s e d => cases d <;> rfl

theorem checkSignTokens_factors (op : Operation) :
    checkSignTokens op = checkSignOfIdentity (opIdentity op) := by
  have hvs : ∀ vs : MetricValueSet,
      [HashTok.nul, HashTok.str vs.metricName] ++
        (vs.metricValues.map updateHashTokens).flatten =
      [HashTok.nul, HashTok.str vs.metricName] ++
        ((vs.metricValues.map mvIdentity).map mvIdentTokens).flatten := by
    intro vs
    rw [List.map_map]
    have h2 : vs.metricValues.map updateHashTokens =
        vs.metricValues.map (mvIdentTokens ∘ mvIdentity) :=
      List.map_congr_left fun mv _ => updateHashTokens_factors mv
    rw [h2]
  have hsets : op.metricValueSets.map (fun vs =>
        [HashTok.nul, HashTok.str vs.metricName] ++
        (vs.metricValues.map updateHashTokens).flatten) =
      op.metricValueSets.map (fun vs =>
        [HashTok.nul, HashTok.str vs.metricName] ++
        ((vs.metricValues.map mvIdentity).map mvIdentTokens).flatten) :=
    List.map_congr_left fun vs _ => hvs vs
  unfold checkSignTokens checkSignOfIdentity opIdentity
  cases op.operationName <;> cases op.consumerId
  · rfl
  · rfl
  · rfl
  · simp only [List.map_map]
    rw [hsets]
    rfl

/-- C3: the check-request signature is a function of the operation's name,
consumer id, labels, metric names, per-value label sets and money currency
codes, and quota properties alone; operations differing only in metric
numeric payloads, timestamps or `operation_id` therefore sign identically. -/
theorem c3_fingerprint_stability (o o' : Operation)
    (h : opIdentity o = opIdentity o') :
    checkSignTokens o = checkSignTokens o' := by
  rw [checkSignTokens_factors, checkSignTokens_factors, h]

/-- Two concrete operations differing only in the int64 payload, the metric
value timestamps, the operation timestamps and `operation_id`. -/
def c3OpA : Operation :=
  ⟨some "id-1", some "AMethod", some "api_key:k1", some 0, some 5, .LOW,
   [("region", "us")],
   [⟨"m", [⟨[("tier", "a")], some 0, some 5, .int64Value 3⟩]⟩], [], none⟩

def c3OpB : Operation :=
  ⟨some "id-2", some "AMethod", some "api_key:k1", some 7, some 9, .LOW,
   [("region", "us")],
   [⟨"m", [⟨[("tier", "a")], some 7, some 9, .int64Value 42⟩]⟩], [], none⟩

theorem c3_fingerprint_stability_witness :
    checkSignTokens c3OpA = checkSignTokens c3OpB :=
  c3_fingerprint_stability c3OpA c3OpB rfl

/-! ### google/scc/aggregators/check_request.py — Aggregator

Times are integer instants; `flush_interval` / `expiration` are durations on
the same line.  The cache is `cachetools.TTLCache`: an entry written at `ins`
is visible while `now < ins + ttl` with `ttl = expiration`; `__setitem__`
(performed by `add_response`, not by `check`) resets `ins`. -/

structure CheckAggregationOptions where
  numEntries : Int
  flushInterval : Int
  expiration : Int
deriving DecidableEq, Repr

/-- `CheckAggregationOptions.__new__`: an expiration not greater than the
flush interval is replaced by `flush_interval + 1` millisecond. -/
def mkCheckOptions (numEntries flushInterval expiration : Int) :
    CheckAggregationOptions :=
  ⟨numEntries, flushInterval,
   if expiration ≤ flushInterval then flushInterval + 1 else expiration⟩

structure CheckResponse where
  operationId : Option String
  checkErrors : List String
deriving DecidableEq, Repr

structure CheckCachedItem where
  lastCheckTime : Int
  quotaScale : Int
  isFlushing : Bool
  response : CheckResponse
  opAggregator : Option OpAggState
deriving DecidableEq, Repr

structure CheckRequest where
  operation : Option Operation
deriving DecidableEq, Repr

structure SSCheckRequest where
  serviceName : String
  checkRequest : Option CheckRequest
deriving DecidableEq, Repr

/-- Check aggregator state: `cache = none` when `caches.create` returned
`None` (caching disabled).  Each entry carries its TTL insertion instant. -/
structure CheckAggState where
  serviceName : String
  options : CheckAggregationOptions
  kinds : List (String × MetricKind)
  cache : Option (List (List HashTok × (Int × CheckCachedItem)))
deriving DecidableEq, Repr

/-- `TTLCache.get`: present while `now < ins + ttl`. -/
def ttlGet (now ttl : Int) (entries : List (List HashTok × (Int × CheckCachedItem)))
    (sig : List HashTok) : Option (Int × CheckCachedItem) :=
  match alGet sig entries with
  | some e => if now < e.1 + ttl then some e else none
  | none => none

/-- `CachedItem.update_request`: build or extend the operation aggregator. -/
def updateRequestAgg (kinds : List (String × MetricKind)) (agg0 : Option OpAggState)
    (op : Operation) : Except MergeError OpAggState :=
  match agg0 with
  | none => opAggInit kinds op
  | some a => opAggAdd a op

/-- `Aggregator.add_response`: key by `sign(req.check_request)`; insert a new
item at `now` or update the existing one (resetting the TTL instant). -/
def checkAddResponse (st : CheckAggState) (req : SSCheckRequest) (resp : CheckResponse)
    (now : Int) : Except MergeError CheckAggState :=
  match st.cache with
  | none => .ok st
  | some entries =>
    match req.checkRequest with
    | none => .error .badRequest
    | some cr =>
      match cr.operation with
      | none => .error .badRequest
      | some op => do
        let sig ← checkSignTokens op
        match ttlGet now st.options.expiration entries sig with
        | none =>
            .ok ⟨st.serviceName, st.options, st.kinds,
                 some (alUpdate sig (now, ⟨now, 0, false, resp, none⟩) entries)⟩
        | some (_, item) =>
            .ok ⟨st.serviceName, st.options, st.kinds,
                 some (alUpdate sig
                   (now, ⟨now, 0, false, resp, item.opAggregator⟩) entries)⟩

/-- `Aggregator.check` and `_handle_cached_response`: returns
`(cached-response-or-MISS, next state)`.  `none` is the MISS signal telling
the caller to perform the transport RPC. -/
def checkStep (st : CheckAggState) (req : SSCheckRequest) (now : Int) :
    Except MergeError (Option CheckResponse × CheckAggState) :=
  match st.cache with
  | none => .ok (none, st)
  | some entries =>
    if req.serviceName ≠ st.serviceName then .error .badRequest
    else
      match req.checkRequest with
      | none => .error .badRequest
      | some cr =>
        match cr.operation with
        | none => .error .badRequest
        | some op =>
          if op.importance ≠ .LOW then .ok (none, st)
          else do
            let sig ← checkSignTokens op
            match ttlGet now st.options.expiration entries sig with
            | none => .ok (none, st)
            | some (ins, item) =>
              if item.response.checkErrors ≠ [] then
                if now - item.lastCheckTime < st.options.flushInterval then
                  .ok (some item.response, st)
                else
                  .ok (none, ⟨st.serviceName, st.options, st.kinds,
                    some (alUpdate sig
                      (ins, ⟨now, item.quotaScale, item.isFlushing, item.response,
                             item.opAggregator⟩) entries)⟩)
              else do
                let agg2 ← updateRequestAgg st.kinds item.opAggregator op
                if now - item.lastCheckTime < st.options.flushInterval then
                  .ok (some item.response, ⟨st.serviceName, st.options, st.kinds,
                    some (alUpdate sig
                      (ins, ⟨item.lastCheckTime, item.quotaScale, item.isFlushing,
                             item.response, some agg2⟩) entries)⟩)
                else
                  .ok (none, ⟨st.serviceName, st.options, st.kinds,
                    some (alUpdate sig
                      (ins, ⟨now, item.quotaScale, true, item.response, some agg2⟩)
                      entries)⟩)

/-! C2 concrete run: flush_interval 1, expiration 3.  A successful response is
stored at `t = 0`; the check at `t = 1` is the refreshing MISS; the claim then
promises the cached response until expiry at `t = 3`, but the check at
`t = 2` is another MISS (one flush interval after the refresh). -/

def c2Op : Operation :=
  ⟨some "id", some "AMethod", some "project:p", none, none, .LOW, [], [], [], none⟩

def c2Req : SSCheckRequest := ⟨"svc", some ⟨some c2Op⟩⟩

def c2Resp : CheckResponse := ⟨some "id", []⟩

def c2St0 : CheckAggState := ⟨"svc", mkCheckOptions 10000 1 3, [], some []⟩

def c2Scenario : Except MergeError (Option CheckResponse × Option CheckResponse) := do
  let s1 ← checkAddResponse c2St0 c2Req c2Resp 0
  let p1 ← checkStep s1 c2Req 1
  let p2 ← checkStep p1.2 c2Req 2
  pure (p1.1, p2.1)

/-- C2 (counterexample): with flush_interval 1 and expiration 3, after the
response is stored at 0 and the first MISS at 1, the check at 2 — strictly
before the expiration instant 3 — returns MISS again, not the cached
response. -/
theorem c2_counterexample_second_miss_before_expiry :
    c2Scenario = .ok (none, none) ∧
    (2 : Int) < 0 + (mkCheckOptions 10000 1 3).expiration := by
  exact ⟨rfl, by decide⟩

/-- C2 (amended): after `add_response` stores a successful `r` at `t`, a check
within `flush_interval` of the entry's `last_check_time` and before the
expiration TTL returns `r`; a check at or past `flush_interval` (and before
expiry) is a single MISS that resets `last_check_time` and marks the entry
flushing, so checks return `r` again while within one flush interval of that
MISS and before expiry — not, as claimed, unconditionally until expiry; at or
after the expiration TTL the entry is invisible and every check is a MISS. -/
theorem c2_check_tiered_refresh :
    (∀ (sname : String) (o : CheckAggregationOptions) (kinds : List (String × MetricKind))
       (es : List (List HashTok × (Int × CheckCachedItem))) (req : SSCheckRequest)
       (cr : CheckRequest) (op : Operation) (sig : List HashTok) (resp : CheckResponse)
       (now : Int),
       req.checkRequest = some cr → cr.operation = some op →
       checkSignTokens op = .ok sig → alGet sig es = none →
       checkAddResponse ⟨sname, o, kinds, some es⟩ req resp now =
         .ok ⟨sname, o, kinds, some (alUpdate sig (now, ⟨now, 0, false, resp, none⟩) es)⟩) ∧
    (∀ (sname : String) (o : CheckAggregationOptions) (kinds : List (String × MetricKind))
       (es : List (List HashTok × (Int × CheckCachedItem))) (req : SSCheckRequest)
       (cr : CheckRequest) (op : Operation) (sig : List HashTok) (ins lct qs : Int)
       (fl : Bool) (agg0 : Option OpAggState) (agg2 : OpAggState) (r : CheckResponse)
       (now : Int),
       req.serviceName = sname → req.checkRequest = some cr → cr.operation = some op →
       op.importance = .LOW → checkSignTokens op = .ok sig →
       alGet sig es = some (ins, ⟨lct, qs, fl, r, agg0⟩) → r.checkErrors = [] →
       updateRequestAgg kinds agg0 op = .ok agg2 →
       now < ins + o.expiration → now - lct < o.flushInterval →
       checkStep ⟨sname, o, kinds, some es⟩ req now =
         .ok (some r, ⟨sname, o, kinds,
           some (alUpdate sig (ins, ⟨lct, qs, fl, r, some agg2⟩) es)⟩)) ∧
    (∀ (sname : String) (o : CheckAggregationOptions) (kinds : List (String × MetricKind))
       (es : List (List HashTok × (Int × CheckCachedItem))) (req : SSCheckRequest)
       (cr : CheckRequest) (op : Operation) (sig : List HashTok) (ins lct qs : Int)
       (fl : Bool) (agg0 : Option OpAggState) (agg2 : OpAggState) (r : CheckResponse)
       (now : Int),
       req.serviceName = sname → req.checkRequest = some cr → cr.operation = some op →
       op.importance = .LOW → checkSignTokens op = .ok sig →
       alGet sig es = some (ins, ⟨lct, qs, fl, r, agg0⟩) → r.checkErrors = [] →
       updateRequestAgg kinds agg0 op = .ok agg2 →
       now < ins + o.expiration → ¬ (now - lct < o.flushInterval) →
       checkStep ⟨sname, o, kinds, some es⟩ req now =
         .ok (none, ⟨sname, o, kinds,
           some (alUpdate sig (ins, ⟨now, qs, true, r, some agg2⟩) es)⟩)) ∧
    (∀ (sname : String) (o : CheckAggregationOptions) (kinds : List (String × MetricKind))
       (es : List (List HashTok × (Int × CheckCachedItem))) (req : SSCheckRequest)
       (cr : CheckRequest) (op : Operation) (sig : List HashTok) (ins : Int)
       (item : CheckCachedItem) (now : Int),
       req.serviceName = sname → req.checkRequest = some cr → cr.operation = some op →
       op.importance = .LOW → checkSignTokens op = .ok sig →
       alGet sig es = some (ins, item) → ¬ (now < ins + o.expiration) →
       checkStep ⟨sname, o, kinds, some es⟩ req now =
         .ok (none, ⟨sname, o, kinds, some es⟩)) := by
  refine ⟨?_, ?_, ?_, ?_⟩
  · intro sname o kinds es req cr op sig resp now h1 h2 h3 h4
    simp only [checkAddResponse, h1, h2, h3, ttlGet, h4, bind, Except.bind]
  · intro sname o kinds es req cr op sig ins lct qs fl agg0 agg2 r now
      h1 h2 h3 h4 h5 h6 h7 h8 h9 h10
    simp only [checkStep, h1, h2, h3, h4, h5, ttlGet, h6, bind, Except.bind, ne_eq,
      not_true_eq_false, if_false, h8, if_pos h9, if_pos h10]
    simp [h7]
  · intro sname o kinds es req cr op sig ins lct qs fl agg0 agg2 r now
      h1 h2 h3 h4 h5 h6 h7 h8 h9 h10
    simp only [checkStep, h1, h2, h3, h4, h5, ttlGet, h6, bind, Except.bind, ne_eq,
      not_true_eq_false, if_false, h8, if_pos h9, if_neg h10]
    simp [h7]
  · intro sname o kinds es req cr op sig ins item now h1 h2 h3 h4 h5 h6 h7
    simp only [checkStep, h1, h2, h3, h4, h5, ttlGet, h6, bind, Except.bind, ne_eq,
      not_true_eq_false, if_false, if_neg h7]

/-- The signature `check_request.sign` computes for `c2Op`. -/
def c2Sig : List HashTok :=
  [HashTok.str "AMethod", .nul, .str "project:p", .nul, .nul]

/-- C2 witness: the amended theorem applied on the concrete configuration of
`c2Scenario` — the in-window check at `now = 0` against the entry stored at
`0` returns the cached response. -/
theorem c2_check_tiered_refresh_witness :
    checkStep ⟨"svc", mkCheckOptions 10000 1 3, [], some
        [(c2Sig, ((0 : Int), ⟨0, 0, false, c2Resp, none⟩))]⟩ c2Req 0 =
      .ok (some c2Resp, ⟨"svc", mkCheckOptions 10000 1 3, [], some
        [(c2Sig, ((0 : Int), ⟨0, 0, false, c2Resp, some ⟨[], c2Op, []⟩⟩))]⟩) := by
  exact c2_check_tiered_refresh.2.1 "svc" (mkCheckOptions 10000 1 3) []
    [(c2Sig, ((0 : Int), ⟨0, 0, false, c2Resp, none⟩))] c2Req
    ⟨some c2Op⟩ c2Op c2Sig 0 0 0 false none ⟨[], c2Op, []⟩ c2Resp 0 rfl rfl rfl rfl rfl
    (by simp [alGet]) rfl rfl (by decide) (by decide)

/-! ### endpoints_management/control/quota_request.py

The quota aggregator of the newer tree.  Its helper modules
(`endpoints_management/control/{caches,metric_value,operation,signing}.py`)
are not under `src/`; per the spec they behave as the `google/scc`
counterparts embedded above (the DELTA rule of §4.5, the fingerprint recipe of
§4.1), so those definitions are reused.  The cache object's `expire()` is
modelled from the spec ("Expiration: TTL after which a cached entry is evicted
entirely") as dropping entries whose age since `last_check_time` reached
`expiration`. -/

inductive QuotaMode where
  | BEST_EFFORT
  | NORMAL
deriving DecidableEq, Repr

structure QuotaOperation where
  operationId : Option String
  methodName : Option String
  consumerId : Option String
  labels : List (String × String)
  quotaMetrics : List MetricValueSet
  quotaMode : QuotaMode
deriving DecidableEq, Repr

structure AllocateQuotaRequest where
  allocateOperation : Option QuotaOperation
deriving DecidableEq, Repr

structure SSAllocateQuotaRequest where
  serviceName : String
  allocateQuotaRequest : Option AllocateQuotaRequest
deriving DecidableEq, Repr

inductive QuotaErrorCode where
  | UNSPECIFIED
  | RESOURCE_EXHAUSTED
  | PROJECT_STATUS_UNAVAILABLE
  | SERVICE_STATUS_UNAVAILABLE
  | BILLING_STATUS_UNAVAILABLE
  | QUOTA_SYSTEM_UNAVAILABLE
  | BILLING_NOT_ACTIVE
  | PROJECT_DELETED
  | API_KEY_INVALID
  | API_KEY_EXPIRED
  | OTHER
deriving DecidableEq, Repr

structure QuotaErrorItem where
  code : QuotaErrorCode
  description : Option String
deriving DecidableEq, Repr

structure AllocateQuotaResponse where
  operationId : Option String
  allocateErrors : List QuotaErrorItem
deriving DecidableEq, Repr

/-- `quota_request.sign`: method name, `0x00`, consumer id, labels, then per
quota metric set a `0x00`, the metric name and the values' `update_hash`
contributions, and a trailing `0x00`. -/
def quotaSignTokens (aqr : AllocateQuotaRequest) : Except MergeError (List HashTok) :=
  match aqr.allocateOperation with
  | none => .error .badRequest
  | some op =>
    match op.methodName, op.consumerId with
    | some name, some cid =>
        .ok ([HashTok.str name, .nul, .str cid] ++
          (if op.labels.isEmpty then [] else addDictToHash op.labels) ++
          (op.quotaMetrics.map (fun vs =>
            [HashTok.nul, .str vs.metricName] ++
            (vs.metricValues.map updateHashTokens).flatten)).flatten ++
          [HashTok.nul])
    | _, _ => .error .badRequest

/-- `QuotaOperationAggregator` state: the deep-copied operation (quota metrics
emptied) and the per-metric-name merged value. -/
structure QuotaOpAggState where
  op : QuotaOperation
  metricValueSets : List (String × MetricValue)
deriving DecidableEq, Repr

/-- `QuotaOperationAggregator.merge_operation`: per metric set, keep
`metricValues[0]` or merge it into the stored value with the DELTA rule. -/
def quotaMergeOperation (st : QuotaOpAggState) (op : QuotaOperation) :
    Except MergeError QuotaOpAggState :=
  op.quotaMetrics.foldlM (fun acc vs =>
    match vs.metricValues with
    | [] => .error .badRequest
    | mv0 :: _ =>
      match alGet vs.metricName acc.metricValueSets with
      | none => .ok ⟨acc.op, alUpdate vs.metricName mv0 acc.metricValueSets⟩
      | some prior => do
          let m ← metricValueMerge .DELTA prior mv0
          .ok ⟨acc.op, alUpdate vs.metricName m acc.metricValueSets⟩) st

/-- `QuotaOperationAggregator.__init__`. -/
def quotaOpAggInit (op : QuotaOperation) : Except MergeError QuotaOpAggState :=
  quotaMergeOperation
    ⟨⟨op.operationId, op.methodName, op.consumerId, op.labels, [], op.quotaMode⟩, []⟩ op

/-- `QuotaOperationAggregator.as_quota_operation`. -/
def quotaOpAggAsOperation (st : QuotaOpAggState) : QuotaOperation :=
  ⟨st.op.operationId, st.op.methodName, st.op.consumerId, st.op.labels,
   st.metricValueSets.map (fun p => ⟨p.1, [p.2]⟩), st.op.quotaMode⟩

structure QuotaCachedItem where
  request : AllocateQuotaRequest
  response : AllocateQuotaResponse
  lastCheckTime : Int
  isInFlight : Bool
  opAggregator : Option QuotaOpAggState
deriving DecidableEq, Repr

/-- `CachedItem.aggregate`. -/
def quotaItemAggregate (item : QuotaCachedItem) (aqr : AllocateQuotaRequest) :
    Except MergeError QuotaCachedItem :=
  match aqr.allocateOperation with
  | none => .error .badRequest
  | some op => do
    let agg ← match item.opAggregator with
      | none => quotaOpAggInit op
      | some a => quotaMergeOperation a op
    .ok ⟨item.request, item.response, item.lastCheckTime, item.isInFlight, some agg⟩

/-- `CachedItem.extract_request`: wrap either the original request (no
aggregator) or the aggregated operation, clearing the aggregator. -/
def quotaExtractRequest (sname : String) (item : QuotaCachedItem) :
    SSAllocateQuotaRequest × QuotaCachedItem :=
  match item.opAggregator with
  | none => (⟨sname, some item.request⟩, item)
  | some agg =>
      (⟨sname, some ⟨some (quotaOpAggAsOperation agg)⟩⟩,
       ⟨item.request, item.response, item.lastCheckTime, item.isInFlight, none⟩)

/-- `caches.QuotaOptions` (the endpoints tree's quota cache configuration). -/
structure QuotaOptions where
  numEntries : Int
  flushInterval : Int
  expiration : Int
deriving DecidableEq, Repr

structure QuotaAggState where
  serviceName : String
  options : QuotaOptions
  cache : Option (List (List HashTok × QuotaCachedItem))
  out : List SSAllocateQuotaRequest
  inFlushAll : Bool
deriving DecidableEq, Repr

/-- Set `quotaMode = NORMAL` on the operation of an outgoing refresh request
(`allocate_quota`'s negative-response branch). -/
def setNormalMode (req : SSAllocateQuotaRequest) : SSAllocateQuotaRequest :=
  match req.allocateQuotaRequest with
  | none => req
  | some aqr =>
    match aqr.allocateOperation with
    | none => req
    | some op =>
        ⟨req.serviceName, some ⟨some ⟨op.operationId, op.methodName, op.consumerId,
          op.labels, op.quotaMetrics, .NORMAL⟩⟩⟩

/-- `Aggregator.allocate_quota`.  Returns `(response-or-passthrough, state)`:
`none` means "no cache, send the request now".  On a miss a temporary
positive response keyed to the operation id is cached in-flight and the
original request is queued; on a hit a due refresh may be queued (NORMAL mode
if the cached response is negative), the caller's operation is merged when the
cached response is positive, and the cached response is returned. -/
def allocateQuota (st : QuotaAggState) (req : SSAllocateQuotaRequest) (now : Int) :
    Except MergeError (Option AllocateQuotaResponse × QuotaAggState) :=
  match st.cache with
  | none => .ok (none, st)
  | some entries =>
    if req.serviceName ≠ st.serviceName then .error .badRequest
    else
      match req.allocateQuotaRequest with
      | none => .error .badRequest
      | some aqr =>
        match aqr.allocateOperation with
        | none => .error .badRequest
        | some op => do
          let sig ← quotaSignTokens aqr
          match alGet sig entries with
          | none =>
            let temp : AllocateQuotaResponse := ⟨op.operationId, []⟩
            .ok (some temp,
              ⟨st.serviceName, st.options,
               some (alUpdate sig ⟨aqr, temp, now, true, none⟩ entries),
               st.out ++ [req], st.inFlushAll⟩)
          | some item =>
            let afterRefresh :=
              if ¬ item.isInFlight ∧ now - item.lastCheckTime ≥ st.options.flushInterval then
                let pr := quotaExtractRequest st.serviceName item
                let item' : QuotaCachedItem :=
                  ⟨pr.2.request, pr.2.response, pr.2.lastCheckTime, true, pr.2.opAggregator⟩
                let rq := if item.response.allocateErrors.isEmpty then pr.1
                          else setNormalMode pr.1
                (item', st.out ++ [rq])
              else (item, st.out)
            let item1 := afterRefresh.1
            if item1.response.allocateErrors.isEmpty then do
              let item2 ← quotaItemAggregate item1 aqr
              .ok (some item2.response,
                ⟨st.serviceName, st.options, some (alUpdate sig item2 entries),
                 afterRefresh.2, st.inFlushAll⟩)
            else
              .ok (some item1.response,
                ⟨st.serviceName, st.options, some (alUpdate sig item1 entries),
                 afterRefresh.2, st.inFlushAll⟩)

/-- `Aggregator.add_response`: update the existing entry with the real
response, clearing the in-flight mark.  (When the signature is absent the
source constructs `CachedItem` with the transport-level request and trips its
`isinstance` assertion, hence the error.) -/
def quotaAddResponse (st : QuotaAggState) (req : SSAllocateQuotaRequest)
    (resp : AllocateQuotaResponse) (now : Int) : Except MergeError QuotaAggState :=
  match st.cache with
  | none => .ok st
  | some entries =>
    match req.allocateQuotaRequest with
    | none => .error .badRequest
    | some aqr => do
      let sig ← quotaSignTokens aqr
      match alGet sig entries with
      | none => .error .badRequest
      | some item =>
          .ok ⟨st.serviceName, st.options,
               some (alUpdate sig
                 ⟨item.request, resp, now, false, item.opAggregator⟩ entries),
               st.out, st.inFlushAll⟩

/-- `Aggregator.flush`: expire old entries, queue one extracted request per
live, not-in-flight entry with pending aggregated content, then drain the
outbound queue. -/
def quotaFlush (st : QuotaAggState) (now : Int) :
    List SSAllocateQuotaRequest × QuotaAggState :=
  match st.cache with
  | none => ([], st)
  | some entries =>
    let live := entries.filter
      (fun e => now - e.2.lastCheckTime < st.options.expiration)
    let step := live.foldl
      (fun (acc : List (List HashTok × QuotaCachedItem) × List SSAllocateQuotaRequest) e =>
        if ¬ st.inFlushAll ∧ ¬ (now - e.2.lastCheckTime ≥ st.options.expiration) ∧
           ¬ e.2.isInFlight ∧ e.2.opAggregator ≠ none then
          let pr := quotaExtractRequest st.serviceName e.2
          (acc.1 ++ [(e.1, ⟨pr.2.request, pr.2.response, pr.2.lastCheckTime, true, none⟩)],
           acc.2 ++ [pr.1])
        else (acc.1 ++ [(e.1, e.2)], acc.2))
      ([], [])
    (st.out ++ step.2,
     ⟨st.serviceName, st.options, some step.1, [], st.inFlushAll⟩)

/-- C4: the first `allocate_quota` for a fingerprint not in the cache returns
a response with no `allocateErrors` carrying the request operation's
`operation_id`, stores a new in-flight cache entry for that fingerprint, and
appends the real request to the outbound queue. -/
theorem c4_quota_optimism (sname : String) (o : QuotaOptions)
    (entries : List (List HashTok × QuotaCachedItem))
    (out : List SSAllocateQuotaRequest) (ifa : Bool)
    (req : SSAllocateQuotaRequest) (aqr : AllocateQuotaRequest)
    (op : QuotaOperation) (sig : List HashTok) (now : Int)
    (h1 : req.serviceName = sname)
    (h2 : req.allocateQuotaRequest = some aqr)
    (h3 : aqr.allocateOperation = some op)
    (h4 : quotaSignTokens aqr = .ok sig)
    (h5 : alGet sig entries = none) :
    allocateQuota ⟨sname, o, some entries, out, ifa⟩ req now =
      .ok (some ⟨op.operationId, []⟩,
        ⟨sname, o, some (alUpdate sig ⟨aqr, ⟨op.operationId, []⟩, now, true, none⟩ entries),
         out ++ [req], ifa⟩) := by
  simp only [allocateQuota, h1, h2, h3, h4, h5, bind, Except.bind, ne_eq,
    not_true_eq_false, if_false]

/-- A one-metric quota operation: method `M`, consumer `project:p`,
metric `m` with int64 cost `c`. -/
def qOp (c : Int) : QuotaOperation :=
  ⟨some "qid", some "M", some "project:p", [],
   [⟨"m", [⟨[], none, none, .int64Value c⟩]⟩], .BEST_EFFORT⟩

def qReq (c : Int) : SSAllocateQuotaRequest := ⟨"svc", some ⟨some (qOp c)⟩⟩

/-- Quota aggregator options: flush interval 1, expiration 600. -/
def qOpts : QuotaOptions := ⟨1000, 1, 600⟩

def qSt0 : QuotaAggState := ⟨"svc", qOpts, some [], [], false⟩

/-- C4 witness: the theorem applied to the empty cache and cost 2. -/
theorem c4_quota_optimism_witness :
    allocateQuota qSt0 (qReq 2) 0 =
      .ok (some ⟨some "qid", []⟩,
        ⟨"svc", qOpts, some (alUpdate
           [HashTok.str "M", .nul, .str "project:p", .nul, .str "m", .nul]
           ⟨⟨some (qOp 2)⟩, ⟨some "qid", []⟩, 0, true, none⟩ []),
         [] ++ [qReq 2], false⟩) :=
  c4_quota_optimism "svc" qOpts [] [] false (qReq 2) ⟨some (qOp 2)⟩ (qOp 2)
    [HashTok.str "M", .nul, .str "project:p", .nul, .str "m", .nul] 0
    rfl rfl rfl rfl rfl

/-- C1 counterexample run: three allocations with costs 2, 3, 5 on the same
fingerprint followed by one flush. -/
def c1Scenario : Except MergeError (List SSAllocateQuotaRequest) := do
  let p1 ← allocateQuota qSt0 (qReq 2) 0
  let p2 ← allocateQuota p1.2 (qReq 3) 0
  let p3 ← allocateQuota p2.2 (qReq 5) 0
  pure (quotaFlush p3.2 0).1

/-- C1 (counterexample): after `allocate_quota` calls with costs 2, 3 and 5,
the flush emits exactly one request — the *original first request*, whose
metric value is 2, not the claimed total 10.  (Costs 3 and 5 sit in the
entry's aggregator; the entry itself is skipped because it is in flight.) -/
theorem c1_counterexample_first_flush_carries_first_cost :
    c1Scenario = .ok [qReq 2] ∧
    qOp 2 = ⟨some "qid", some "M", some "project:p", [],
      [⟨"m", [⟨[], none, none, .int64Value 2⟩]⟩], .BEST_EFFORT⟩ ∧
    (2 : Int) ≠ 2 + 3 + 5 := by
  exact ⟨rfl, rfl, by decide⟩

/-- The fingerprint of every `qReq c` (cost-independent). -/
def qSig : List HashTok :=
  [HashTok.str "M", .nul, .str "project:p", .nul, .str "m", .nul]

def qOpBase : QuotaOperation :=
  ⟨some "qid", some "M", some "project:p", [], [], .BEST_EFFORT⟩

def qMV (v : Int) : MetricValue := ⟨[], none, none, .int64Value v⟩

/-- State after the first allocation (cost `c1`): the entry is in flight with
no aggregator and the original request is queued. -/
def qStFirst (c1 : Int) : QuotaAggState :=
  ⟨"svc", qOpts,
   some [(qSig, ⟨⟨some (qOp c1)⟩, ⟨some "qid", []⟩, 0, true, none⟩)],
   [qReq c1], false⟩

/-- State once later costs totalling `acc` have been aggregated. -/
def qStAgg (c1 acc : Int) : QuotaAggState :=
  ⟨"svc", qOpts,
   some [(qSig, ⟨⟨some (qOp c1)⟩, ⟨some "qid", []⟩, 0, true,
          some ⟨qOpBase, [("m", qMV acc)]⟩⟩)],
   [qReq c1], false⟩

/-- Sequential driver: perform the allocations one after another. -/
def allocSeq : QuotaAggState → List SSAllocateQuotaRequest → Int →
    Except MergeError QuotaAggState
  | st, [], _ => .ok st
  | st, r :: rs, now => do
      let p ← allocateQuota st r now
      allocSeq p.2 rs now

theorem qAllocStepFirst (c1 c : Int) :
    allocateQuota (qStFirst c1) (qReq c) 0 =
      .ok (some ⟨some "qid", []⟩, qStAgg c1 c) := rfl

theorem qAllocStep (c1 acc c : Int) :
    allocateQuota (qStAgg c1 acc) (qReq c) 0 =
      .ok (some ⟨some "qid", []⟩, qStAgg c1 (acc + c)) := rfl

theorem qAllocSeqSums (cs : List Int) :
    ∀ acc c1, allocSeq (qStAgg c1 acc) (cs.map qReq) 0 =
      .ok (qStAgg c1 (acc + cs.sum)) := by
  induction cs with
  | nil => intro acc c1; simp [allocSeq]
  | cons c rest ih =>
      intro acc c1
      simp only [List.map_cons, allocSeq, qAllocStep c1 acc c, bind, Except.bind]
      rw [ih (acc + c) c1, List.sum_cons, add_assoc]

def qRealResp : AllocateQuotaResponse := ⟨some "qid", []⟩

/-- The whole amended scenario: allocate `c1`, then the remaining costs, flush
once, feed the real response back, flush again; yields the two flush
results. -/
def c1AmendedTrace (c1 : Int) (cs : List Int) :
    Except MergeError (List SSAllocateQuotaRequest × List SSAllocateQuotaRequest) := do
  let p1 ← allocateQuota qSt0 (qReq c1) 0
  let s2 ← allocSeq p1.2 (cs.map qReq) 0
  let f1 := quotaFlush s2 0
  let s4 ← quotaAddResponse f1.2 (qReq c1) qRealResp 0
  pure (f1.1, (quotaFlush s4 0).1)

/-- The single request the second flush emits when the aggregated later costs
total `v`. -/
def qFlushedReq (v : Int) : SSAllocateQuotaRequest :=
  ⟨"svc", some ⟨some ⟨some "qid", some "M", some "project:p", [],
    [⟨"m", [qMV v]⟩], .BEST_EFFORT⟩⟩⟩

/-- State after the first flush: outbound queue drained, entry untouched. -/
def qStAfterFlush (c1 acc : Int) : QuotaAggState :=
  ⟨"svc", qOpts,
   some [(qSig, ⟨⟨some (qOp c1)⟩, ⟨some "qid", []⟩, 0, true,
          some ⟨qOpBase, [("m", qMV acc)]⟩⟩)],
   [], false⟩

/-- State once the real response has been recorded: not in flight. -/
def qStReady (c1 acc : Int) : QuotaAggState :=
  ⟨"svc", qOpts,
   some [(qSig, ⟨⟨some (qOp c1)⟩, qRealResp, 0, false,
          some ⟨qOpBase, [("m", qMV acc)]⟩⟩)],
   [], false⟩

theorem qFlushFirst (c1 acc : Int) :
    quotaFlush (qStAgg c1 acc) 0 = ([qReq c1], qStAfterFlush c1 acc) := rfl

theorem qAddRealResponse (c1 acc : Int) :
    quotaAddResponse (qStAfterFlush c1 acc) (qReq c1) qRealResp 0 =
      .ok (qStReady c1 acc) := rfl

theorem qFlushSecond (c1 acc : Int) :
    (quotaFlush (qStReady c1 acc) 0).1 = [qFlushedReq acc] := rfl

/-- C1 (amended): the first request (cost `c_1`) is queued as-is and is the
single request of the first flush; costs `c_2 … c_N` merge into the entry's
aggregator under the DELTA rule; the entry is skipped by flushes while its
initial request is in flight, and once the real response is recorded the next
flush emits exactly one request whose metric `m` carries `c_2 + … + c_N` —
not the full `Σ c_i` of the claim. -/
theorem c1_quota_delta_merging_amended (c1 : Int) (cs : List Int) (h : cs ≠ []) :
    c1AmendedTrace c1 cs = .ok ([qReq c1], [qFlushedReq cs.sum]) := by
  cases cs with
  | nil => exact absurd rfl h
  | cons c rest =>
      show (do
        let p1 ← allocateQuota qSt0 (qReq c1) 0
        let s2 ← allocSeq p1.2 ((c :: rest).map qReq) 0
        let f1 := quotaFlush s2 0
        let s4 ← quotaAddResponse f1.2 (qReq c1) qRealResp 0
        pure (f1.1, (quotaFlush s4 0).1)) = _
      have h0 : allocateQuota qSt0 (qReq c1) 0 =
          .ok (some ⟨some "qid", []⟩, qStFirst c1) := rfl
      simp only [h0, List.map_cons, allocSeq, qAllocStepFirst c1 c, bind, Except.bind]
      rw [qAllocSeqSums rest c c1]
      simp only [qFlushFirst, qAddRealResponse, qFlushSecond, List.sum_cons]
      rfl

/-- C1 witness: concrete costs 2, then 3 and 5 — the first flush returns the
original request (cost 2), the second flush one request with `m = 8`. -/
theorem c1_quota_delta_merging_amended_witness :
    c1AmendedTrace 2 [3, 5] = .ok ([qReq 2], [qFlushedReq 8]) := by
  have h := c1_quota_delta_merging_amended 2 [3, 5] (by decide)
  simpa using h

/-! ### quota_request.convert_response

Python's `str.format` on the concrete templates is modelled by a character
scanner that replaces `\x7bproject_id\x7d` and `\x7bdetail\x7d`; the fuel
argument (the template length suffices) keeps it structural. -/

def substFuel : Nat → List Char → String → String → List Char
  | 0, _, _, _ => []
  | _ + 1, [], _, _ => []
  | n + 1, ch :: rest, pid, detail =>
    if ch = '\x7b' then
      let name := rest.takeWhile (fun c => c ≠ '\x7d')
      let rest2 := (rest.dropWhile (fun c => c ≠ '\x7d')).drop 1
      (if String.mk name = "project_id" then pid.toList
       else if String.mk name = "detail" then detail.toList
       else '\x7b' :: (name ++ ['\x7d'])) ++ substFuel n rest2 pid detail
    else ch :: substFuel n rest pid detail

def pyFormat (template pid detail : String) : String :=
  String.mk (substFuel (template.toList.length + 1) template.toList pid detail)

/-- `_QUOTA_ERROR_CONVERSION` plus the `_IS_UNKNOWN` default used for any
code outside the table. -/
def quotaErrorConversion : QuotaErrorCode → Int × String
  | .RESOURCE_EXHAUSTED => (429, "Quota allocation failed")
  | .BILLING_NOT_ACTIVE =>
      (403, "Project {project_id} has billing disabled. Please enable it")
  | .PROJECT_DELETED => (403, "Project {project_id} has been deleted")
  | .API_KEY_INVALID => (400, "API not valid. Please pass a valid API key")
  | .API_KEY_EXPIRED => (400, "API key expired. Please renew the API key")
  | .UNSPECIFIED => (200, "")
  | .PROJECT_STATUS_UNAVAILABLE => (200, "")
  | .SERVICE_STATUS_UNAVAILABLE => (200, "")
  | .BILLING_STATUS_UNAVAILABLE => (200, "")
  | .QUOTA_SYSTEM_UNAVAILABLE => (200, "")
  | .OTHER => (500, "Request blocked due to unsupported block reason {detail}")

/-- `quota_request.convert_response`: empty/None responses map to 200 with an
empty message; otherwise only the first allocate error counts; the template
is formatted only when it holds a brace. -/
def convertResponse (resp : Option AllocateQuotaResponse) (projectId : String) :
    Int × String :=
  match resp with
  | none => (200, "")
  | some r =>
    match r.allocateErrors with
    | [] => (200, "")
    | e :: _ =>
      let t := quotaErrorConversion e.code
      if !(t.2.toList.contains '\x7b') then t
      else (t.1, pyFormat t.2 projectId (e.description.getD ""))

/-- C6: the fail-open codes map to `(200, "")` for every project id and
description; `RESOURCE_EXHAUSTED ↦ 429`, the API-key codes `↦ 400` with their
fixed messages (no substitution — the result is independent of the project
id); `BILLING_NOT_ACTIVE` and `PROJECT_DELETED ↦ 403` with the project id
substituted; the unknown-code template substitutes the error detail. -/
theorem c6_quota_error_to_http :
    (∀ (pid : String) (d : Option String),
      convertResponse (some ⟨none, [⟨.UNSPECIFIED, d⟩]⟩) pid = (200, "") ∧
      convertResponse (some ⟨none, [⟨.PROJECT_STATUS_UNAVAILABLE, d⟩]⟩) pid = (200, "") ∧
      convertResponse (some ⟨none, [⟨.SERVICE_STATUS_UNAVAILABLE, d⟩]⟩) pid = (200, "") ∧
      convertResponse (some ⟨none, [⟨.BILLING_STATUS_UNAVAILABLE, d⟩]⟩) pid = (200, "") ∧
      convertResponse (some ⟨none, [⟨.QUOTA_SYSTEM_UNAVAILABLE, d⟩]⟩) pid = (200, "") ∧
      convertResponse (some ⟨none, [⟨.RESOURCE_EXHAUSTED, d⟩]⟩) pid =
        (429, "Quota allocation failed") ∧
      convertResponse (some ⟨none, [⟨.API_KEY_INVALID, d⟩]⟩) pid =
        (400, "API not valid. Please pass a valid API key") ∧
      convertResponse (some ⟨none, [⟨.API_KEY_EXPIRED, d⟩]⟩) pid =
        (400, "API key expired. Please renew the API key") ∧
      convertResponse none pid = (200, "") ∧
      convertResponse (some ⟨some "qid", []⟩) pid = (200, "")) ∧
    convertResponse (some ⟨none, [⟨.BILLING_NOT_ACTIVE, none⟩]⟩) "my-project" =
      (403, "Project my-project has billing disabled. Please enable it") ∧
    convertResponse (some ⟨none, [⟨.PROJECT_DELETED, none⟩]⟩) "p2" =
      (403, "Project p2 has been deleted") ∧
    (∀ (pid : String),
      convertResponse (some ⟨none, [⟨.OTHER, some "spam"⟩]⟩) pid =
        (500, "Request blocked due to unsupported block reason spam")) := by
  refine ⟨fun pid d => ⟨rfl, rfl, rfl, rfl, rfl, rfl, rfl, rfl, rfl, rfl⟩, ?_, ?_, fun pid => ?_⟩
  · rfl
  · rfl
  · rfl

/-! ### google/scc/aggregators/report_request.py -/

structure ReportRequestMsg where
  operations : List Operation
deriving DecidableEq, Repr

structure SSReportRequest where
  serviceName : String
  reportRequest : Option ReportRequestMsg
deriving DecidableEq, Repr

/-- `report_request._sign_operation`: consumer id, `0x00`, operation name,
then the labels. -/
def reportSignTokens (op : Operation) : Except MergeError (List HashTok) :=
  match op.consumerId, op.operationName with
  | some cid, some name =>
      .ok ([HashTok.str cid, .nul, .str name] ++
        (if op.labels.isEmpty then [] else addDictToHash op.labels))
  | _, _ => .error .badRequest

/-- `_has_high_important_operation`: `reduce(and, importance ≠ LOW, True)` —
true exactly when *every* operation (vacuously: none) is non-LOW. -/
def hasHighImportantOperation (ops : List Operation) : Bool :=
  ops.foldl (fun x y => x && !(y.importance = .LOW)) true

/-- `_key_by_signature`: a Python dict built from `(sign(op), op)` pairs in
list order — a later operation with the same signature overwrites the
earlier one. -/
def keyBySignature (ops : List Operation) :
    Except MergeError (List (List HashTok × Operation)) :=
  ops.foldlM (fun acc op => do
    let sig ← reportSignTokens op
    .ok (alUpdate sig op acc)) []

inductive ReportResult where
  | passthrough
  | cachedOk
deriving DecidableEq, Repr

structure ReportAggState where
  serviceName : String
  kinds : List (String × MetricKind)
  cache : Option (List (List HashTok × OpAggState))
deriving DecidableEq, Repr

/-- `report_request.Aggregator.report`: passthrough without a cache or when
all operations are non-LOW; otherwise key the request's operations by
signature and fold each into the cached operation aggregators. -/
def reportStep (st : ReportAggState) (req : SSReportRequest) :
    Except MergeError (ReportResult × ReportAggState) :=
  match st.cache with
  | none => .ok (.passthrough, st)
  | some entries =>
    if req.serviceName ≠ st.serviceName then .error .badRequest
    else
      match req.reportRequest with
      | none => .error .badRequest
      | some rr =>
        if hasHighImportantOperation rr.operations then .ok (.passthrough, st)
        else do
          let keyed ← keyBySignature rr.operations
          let entries2 ← keyed.foldlM (fun es kv => do
            match alGet kv.1 es with
            | none => do
                let a ← opAggInit st.kinds kv.2
                .ok (alUpdate kv.1 a es)
            | some agg => do
                let a ← opAggAdd agg kv.2
                .ok (alUpdate kv.1 a es)) entries
          .ok (.cachedOk, ⟨st.serviceName, st.kinds, some entries2⟩)

theorem keyBySignature_fold_overwrites (sig : List HashTok) :
    ∀ (ops : List Operation) (x : Operation),
      (∀ op ∈ ops, reportSignTokens op = .ok sig) →
      ops.foldlM (fun acc op => do
        let s ← reportSignTokens op
        .ok (alUpdate s op acc)) [(sig, x)] = .ok [(sig, ops.getLastD x)] := by
  intro ops
  induction ops with
  | nil => intro x _; rfl
  | cons o rest ih =>
      intro x hall
      have ho : reportSignTokens o = .ok sig := hall o (List.mem_cons_self o rest)
      have hrest : ∀ op ∈ rest, reportSignTokens op = .ok sig :=
        fun op hm => hall op (List.mem_cons_of_mem o hm)
      simp only [List.foldlM, ho, bind, Except.bind, alUpdate, if_pos rfl]
      rw [List.getLastD_cons]
      exact ih o hrest

/-- C10: operations of one report request sharing a fingerprint are collapsed
by the signature-keyed dict before any cache merge — `_key_by_signature`
retains only the last such operation, and `report` on a fresh cache stores an
aggregator seeded from that last operation alone. -/
theorem c10_report_same_fingerprint_last_wins :
    (∀ (o : Operation) (rest : List Operation) (sig : List HashTok),
       reportSignTokens o = .ok sig →
       (∀ op ∈ rest, reportSignTokens op = .ok sig) →
       keyBySignature (o :: rest) = .ok [(sig, rest.getLastD o)]) ∧
    (∀ (sname : String) (kinds : List (String × MetricKind)) (o : Operation)
       (rest : List Operation) (sig : List HashTok) (a : OpAggState),
       reportSignTokens o = .ok sig →
       (∀ op ∈ rest, reportSignTokens op = .ok sig) →
       hasHighImportantOperation (o :: rest) = false →
       opAggInit kinds (rest.getLastD o) = .ok a →
       reportStep ⟨sname, kinds, some []⟩ ⟨sname, some ⟨o :: rest⟩⟩ =
         .ok (.cachedOk, ⟨sname, kinds, some [(sig, a)]⟩)) := by
  have hkey : ∀ (o : Operation) (rest : List Operation) (sig : List HashTok),
      reportSignTokens o = .ok sig →
      (∀ op ∈ rest, reportSignTokens op = .ok sig) →
      keyBySignature (o :: rest) = .ok [(sig, rest.getLastD o)] := by
    intro o rest sig ho hall
    simp only [keyBySignature, List.foldlM, ho, bind, Except.bind, alUpdate]
    exact keyBySignature_fold_overwrites sig rest o hall
  refine ⟨hkey, ?_⟩
  intro sname kinds o rest sig a ho hall hlow hinit
  simp only [reportStep, ne_eq, not_true_eq_false, if_false, hlow,
    hkey o rest sig ho hall, bind, Except.bind, List.foldlM, alGet, hinit, alUpdate]
  rfl

/-- Two report operations with the same fingerprint but different metric
payloads. -/
def c10OpA : Operation :=
  ⟨some "i1", some "AMethod", some "project:p", some 0, some 1, .LOW, [],
   [⟨"m", [⟨[], none, none, .int64Value 3⟩]⟩], [], none⟩

def c10OpB : Operation :=
  ⟨some "i2", some "AMethod", some "project:p", some 0, some 2, .LOW, [],
   [⟨"m", [⟨[], none, none, .int64Value 11⟩]⟩], [], none⟩

def c10Sig : List HashTok :=
  [HashTok.str "project:p", .nul, .str "AMethod"]

/-- C10 witness: the dedup applied to two concrete same-fingerprint
operations — only `c10OpB`, the later one, reaches the cache. -/
theorem c10_report_same_fingerprint_last_wins_witness :
    reportStep ⟨"svc", [], some []⟩ ⟨"svc", some ⟨[c10OpA, c10OpB]⟩⟩ =
      .ok (.cachedOk, ⟨"svc", [], some
        [(c10Sig,
          ⟨[], ⟨some "i2", some "AMethod", some "project:p", some 0, some 2,
                .LOW, [], [], [], none⟩,
           [("m", [([], ⟨[], none, none, .int64Value 11⟩)])]⟩)]⟩) := by
  exact c10_report_same_fingerprint_last_wins.2 "svc" [] c10OpA [c10OpB] c10Sig
    ⟨[], ⟨some "i2", some "AMethod", some "project:p", some 0, some 2,
          .LOW, [], [], [], none⟩,
     [("m", [([], ⟨[], none, none, .int64Value 11⟩)])]⟩
    rfl (by intro op hm; simp at hm; subst hm; rfl) rfl rfl

/-! ### google/scc/caches.py — `create` -/

/-- What `create` reads from either options class: `num_entries`,
`flush_interval`, and `getattr(options, 'expiration', flush_interval)`
(`none` models an options class without the attribute). -/
structure AggOptionsView where
  numEntries : Int
  flushInterval : Int
  expiration : Option Int
deriving DecidableEq, Repr

inductive CacheKind where
  | ttlCache (maxsize ttl : Int)
  | lruCache (maxsize : Int)
deriving DecidableEq, Repr

/-- `caches.create`: `None` when `num_entries <= 0`; a TTL cache (ttl =
expiration, falling back to the flush interval) when the flush interval is
positive; an LRU cache otherwise. -/
def cachesCreate (o : AggOptionsView) : Option CacheKind :=
  if o.numEntries ≤ 0 then none
  else if o.flushInterval > 0 then
    some (.ttlCache o.numEntries (o.expiration.getD o.flushInterval))
  else some (.lruCache o.numEntries)

/-- `check_request.Aggregator.__init__`: the cache comes from
`caches.create(options)`; an empty entry map stands for a fresh cache. -/
def checkAggInit (sname : String) (o : CheckAggregationOptions)
    (kinds : List (String × MetricKind)) : CheckAggState :=
  ⟨sname, o, kinds,
   (cachesCreate ⟨o.numEntries, o.flushInterval, some o.expiration⟩).map (fun _ => [])⟩

structure ReportAggregationOptions where
  numEntries : Int
  flushInterval : Int
deriving DecidableEq, Repr

/-- `report_request.Aggregator.__init__` (its options have no
`expiration`). -/
def reportAggInit (sname : String) (o : ReportAggregationOptions)
    (kinds : List (String × MetricKind)) : ReportAggState :=
  ⟨sname, kinds, (cachesCreate ⟨o.numEntries, o.flushInterval, none⟩).map (fun _ => [])⟩

/-- `quota_request.Aggregator.__init__` (the endpoints tree's
`caches.create(options, use_deque=False)` is not under `src/`; modelled from
the spec as the same `cacheEntries` gate). -/
def quotaAggInitState (sname : String) (o : QuotaOptions) : QuotaAggState :=
  ⟨sname, o,
   (cachesCreate ⟨o.numEntries, o.flushInterval, some o.expiration⟩).map (fun _ => []),
   [], false⟩

/-- C9 (counterexample): `num_entries = 0` is not negative, yet `create`
returns `None` — its gate is `<= 0`, not `< 0` as the claim (and the
function's own docstring) state. -/
theorem c9_counterexample_zero_entries_disables :
    cachesCreate ⟨0, 500, some 1000⟩ = none ∧
    ¬ ((0 : Int) < 0) ∧
    (checkAggInit "svc" ⟨0, 500, 1000⟩ []).cache = none := by
  exact ⟨rfl, by decide, rfl⟩

/-- C9 (amended): an aggregator's cache is disabled — `create` returns `None`
and `check` / `report` / `allocate_quota` become passthrough — exactly when
the configured `num_entries` is *non-positive*; every configuration with a
positive `num_entries` gets a cache. -/
theorem c9_cache_disabled_iff_nonpositive_entries :
    (∀ o : AggOptionsView, cachesCreate o = none ↔ o.numEntries ≤ 0) ∧
    (∀ (sname : String) (o : CheckAggregationOptions) (kinds : List (String × MetricKind)),
       (checkAggInit sname o kinds).cache = none ↔ o.numEntries ≤ 0) ∧
    (∀ (sname : String) (o : ReportAggregationOptions) (kinds : List (String × MetricKind)),
       (reportAggInit sname o kinds).cache = none ↔ o.numEntries ≤ 0) ∧
    (∀ (sname : String) (o : QuotaOptions),
       (quotaAggInitState sname o).cache = none ↔ o.numEntries ≤ 0) ∧
    (∀ (st : CheckAggState) (req : SSCheckRequest) (now : Int), st.cache = none →
       checkStep st req now = .ok (none, st)) ∧
    (∀ (st : ReportAggState) (req : SSReportRequest), st.cache = none →
       reportStep st req = .ok (.passthrough, st)) ∧
    (∀ (st : QuotaAggState) (req : SSAllocateQuotaRequest) (now : Int), st.cache = none →
       allocateQuota st req now = .ok (none, st)) := by
  have hcreate : ∀ o : AggOptionsView, cachesCreate o = none ↔ o.numEntries ≤ 0 := by
    intro o
    unfold cachesCreate
    split_ifs with h1 h2 <;> simp [h1]
  refine ⟨hcreate, ?_, ?_, ?_, ?_, ?_, ?_⟩
  · intro sname o kinds
    simp only [checkAggInit, Option.map_eq_none']
    exact hcreate ⟨o.numEntries, o.flushInterval, some o.expiration⟩
  · intro sname o kinds
    simp only [reportAggInit, Option.map_eq_none']
    exact hcreate ⟨o.numEntries, o.flushInterval, none⟩
  · intro sname o
    simp only [quotaAggInitState, Option.map_eq_none']
    exact hcreate ⟨o.numEntries, o.flushInterval, some o.expiration⟩
  · intro st req now h
    obtain ⟨sn, o, k, c⟩ := st
    simp only at h
    subst h
    rfl
  · intro st req h
    obtain ⟨sn, k, c⟩ := st
    simp only at h
    subst h
    rfl
  · intro st req now h
    obtain ⟨sn, o, c, outq, fa⟩ := st
    simp only at h
    subst h
    rfl

/-- C9 witness: with `num_entries = -1` the check aggregator is built without
a cache and `check` is passthrough. -/
theorem c9_cache_disabled_iff_nonpositive_entries_witness :
    (checkAggInit "svc" ⟨-1, 500, 1000⟩ []).cache = none ∧
    checkStep (checkAggInit "svc" ⟨-1, 500, 1000⟩ []) ⟨"svc", none⟩ 0 =
      .ok (none, checkAggInit "svc" ⟨-1, 500, 1000⟩ []) :=
  ⟨(c9_cache_disabled_iff_nonpositive_entries.2.1 "svc" ⟨-1, 500, 1000⟩ []).2 (by decide),
   c9_cache_disabled_iff_nonpositive_entries.2.2.2.2.1
     (checkAggInit "svc" ⟨-1, 500, 1000⟩ []) ⟨"svc", none⟩ 0 rfl⟩

end EMPy
